import Mathlib

/-!
Verification of the window-kernel text shell (russet): a shallow embedding of
the per-window state machine, the wrap-aware text-edit buffer, the filename
entry buffer, the directory cursor and the kernel input dispatcher, translated
from src/lib.rs.  Machine bytes are modelled as `Nat` (with `% 256` where the
source casts a char to `u8`), `usize` as `Nat`, `isize` as `Int`, fixed byte
arrays as update functions `Nat → Nat` read through a capacity-checked `get`,
and fallible operations (Rust `panic`/`unwrap`/`assert` failures) as `Option`
results where `none` marks an abort.

The Storage collaborator (crate csci320_vsfs), the display driver constants
`BUFFER_WIDTH`/`BUFFER_HEIGHT` and the drawable-character predicate of crate
pluggable_interrupt_os are external to this repository; they are modelled from
the spec where the kernel's transitions need them (each such definition carries
a doc comment saying so).  The renderer only plots characters and never
changes the data model, so drawing is not part of the state transitions.
-/

/-- Display driver constant. Modelled from the spec: the fixed VGA text screen
width of the Display/Input driver collaborator. -/
def BUFFER_WIDTH : Nat := 80

/-- Display driver constant. Modelled from the spec: the fixed VGA text screen
height of the Display/Input driver collaborator. -/
def BUFFER_HEIGHT : Nat := 25

def FIRST_BORDER_ROW : Nat := 1

def LAST_BORDER_ROW : Nat := BUFFER_HEIGHT - 1

def TASK_MANAGER_WIDTH : Nat := 10

def WINDOWS_WIDTH : Nat := BUFFER_WIDTH - TASK_MANAGER_WIDTH

def WINDOW_WIDTH : Nat := (WINDOWS_WIDTH - 3) / 2

def WINDOW_HEIGHT : Nat := (LAST_BORDER_ROW - FIRST_BORDER_ROW - 2) / 2

def BLOCK_SIZE : Nat := 256

def MAX_FILE_BLOCKS : Nat := 64

def MAX_FILE_BYTES : Nat := MAX_FILE_BLOCKS * BLOCK_SIZE

def MAX_FILES_STORED : Nat := 30

def MAX_FILENAME_BYTES : Nat := 10

def PRACTICAL_FILE_BUFFER_SIZE : Nat := MAX_FILE_BYTES - 1

/-- Byte lookup in a list-described byte array: positions past the end of the
list hold 0, exactly like the zero-initialised fixed arrays of the source. -/
def bufOf : List Nat → Nat → Nat
  | [], _ => 0
  | b :: _, 0 => b
  | _ :: t, i + 1 => bufOf t i

/-- The cursor of a directory-mode window (struct DirectoryState). -/
structure DirectoryState where
  cursor : Nat
deriving DecidableEq

/-- DirectoryState::move_cursor: accept the move only when the new position
stays inside `[0, file_count)`; otherwise leave the cursor unchanged. -/
def DirectoryState.move_cursor (d : DirectoryState) (delta : Int) (file_count : Nat) :
    DirectoryState :=
  let new_pos : Int := (d.cursor : Int) + delta
  if 0 ≤ new_pos ∧ new_pos < (file_count : Int) then ⟨new_pos.toNat⟩ else d

/-- The state of an editing-mode window (struct EditingState): a fixed
`PRACTICAL_FILE_BUFFER_SIZE`-byte buffer with length, cursor, scroll offset
and the directory index to restore on exit. -/
structure EditingState where
  filename : List Nat
  buffer : Nat → Nat
  len : Nat
  cursor : Nat
  scroll : Nat
  directory_index : Nat

/-- EditingState::backspace: when the cursor is positive, step it back, zero
the vacated byte and shrink the length. -/
def EditingState.backspace (e : EditingState) : EditingState :=
  if 0 < e.cursor then
    { e with
      cursor := e.cursor - 1
      buffer := fun i => if i = e.cursor - 1 then 0 else e.buffer i
      len := e.len - 1 }
  else e

/-- EditingState::type_char: when the cursor is below capacity, write the byte
of the char (Rust `c as u8`, i.e. the code point mod 256) at the cursor and
advance cursor and length; otherwise do nothing. -/
def EditingState.type_char (e : EditingState) (c : Nat) : EditingState :=
  if e.cursor < PRACTICAL_FILE_BUFFER_SIZE then
    { e with
      buffer := fun i => if i = e.cursor then c % 256 else e.buffer i
      cursor := e.cursor + 1
      len := e.len + 1 }
  else e

/-- The scanning loop of EditingState::line_count: stop on a zero byte or at
the end of the array; on a newline count a line and advance the cursor by two;
at wrap width count a line and advance by one resetting the column; otherwise
advance by one column. -/
def lineCountAux (f : Nat → Nat) (line_width count cursor len : Nat) : Nat :=
  if h : cursor < PRACTICAL_FILE_BUFFER_SIZE then
    if f cursor = 0 then count
    else if f cursor = 10 then lineCountAux f line_width (count + 1) (cursor + 2) 0
    else if len = line_width then lineCountAux f line_width (count + 1) (cursor + 1) 0
    else lineCountAux f line_width count (cursor + 1) (len + 1)
  else count
termination_by PRACTICAL_FILE_BUFFER_SIZE - cursor
decreasing_by
  · omega
  · omega
  · omega

/-- EditingState::line_count: number of display lines of the buffer at wrap
width `line_width`, starting the scan with one line at offset 0. -/
def EditingState.line_count (e : EditingState) (line_width : Nat) : Nat :=
  lineCountAux e.buffer line_width 1 0 0

/-- The scanning loop of EditingState::read_line: break once the requested
line has been passed, or at the end of the array (zero bytes are ordinary
content here); on a newline advance one line skipping the newline byte; at
`WINDOW_WIDTH` columns advance one line without consuming a byte; otherwise
copy the byte into the window when scanning the requested line. -/
def readLineAux (f : Nat → Nat) (line : Nat) (line_buf : List Nat)
    (current_line line_start line_len : Nat) : Option (List Nat) :=
  if line < current_line then some line_buf
  else if h : line_start + line_len < PRACTICAL_FILE_BUFFER_SIZE then
    if f (line_start + line_len) = 10 then
      readLineAux f line line_buf (current_line + 1) (line_start + line_len + 1) 0
    else if line_len = WINDOW_WIDTH then
      readLineAux f line line_buf (current_line + 1) (line_start + line_len) 0
    else
      readLineAux f line
        (if current_line = line then line_buf.set line_len (f (line_start + line_len))
         else line_buf)
        current_line line_start (line_len + 1)
  else none
termination_by 2 * (PRACTICAL_FILE_BUFFER_SIZE - (line_start + line_len)) +
  (if line_len = WINDOW_WIDTH then 1 else 0)
decreasing_by
  all_goals
    have hww : WINDOW_WIDTH = 33 := rfl
    split <;> (try split) <;> omega

/-- EditingState::read_line: the `WINDOW_WIDTH`-wide byte window of logical
line `line`, starting from a window of space bytes, or `none` when the scan
ends before reaching that line. -/
def EditingState.read_line (e : EditingState) (line : Nat) : Option (List Nat) :=
  readLineAux e.buffer line (List.replicate WINDOW_WIDTH 32) 0 0 0

/-- An editing state over the byte content `l` as the program would build it:
content bytes then zero fill, with length and cursor at the end of content. -/
def edOf (l : List Nat) : EditingState :=
  { filename := List.replicate MAX_FILENAME_BYTES 0
    buffer := bufOf l
    len := l.length
    cursor := l.length
    scroll := 0
    directory_index := 0 }


/-- The filename entry buffer (struct TypingBuffer with MAX_FILENAME_BYTES
capacity): a fixed 10-byte array and a cursor. -/
structure TypingBuffer where
  buffer : Nat → Nat
  cursor : Nat

/-- TypingBuffer::type_char: append the byte of the char at the cursor while
below the 10-byte capacity; otherwise do nothing. -/
def TypingBuffer.type_char (t : TypingBuffer) (c : Nat) : TypingBuffer :=
  if t.cursor < MAX_FILENAME_BYTES then
    { buffer := fun i => if i = t.cursor then c % 256 else t.buffer i
      cursor := t.cursor + 1 }
  else t

/-- TypingBuffer::backspace: zero the byte before the cursor and step the
cursor back; no-op at cursor 0. -/
def TypingBuffer.backspace (t : TypingBuffer) : TypingBuffer :=
  if 0 < t.cursor then
    { buffer := fun i => if i = t.cursor - 1 then 0 else t.buffer i
      cursor := t.cursor - 1 }
  else t

/-- TypingBuffer::clear: reset the array to zero bytes and the cursor to 0. -/
def TypingBuffer.clear : TypingBuffer :=
  { buffer := fun _ => 0, cursor := 0 }

/-- The four window identities (enum KWindows). -/
inductive KWindows
  | F1
  | F2
  | F3
  | F4
deriving DecidableEq

/-- The focus target (enum KSelection): one window or the filename bar. -/
inductive KSelection
  | window (w : KWindows)
  | filebar
deriving DecidableEq

/-- The per-window mode (enum KWindowMode). A running window keeps only the
program text handed to the opaque Interpreter collaborator. -/
inductive KWindowMode
  | Directory (d : DirectoryState)
  | Editing (e : EditingState)
  | Running (program : List Nat)

/-- KWindowMode::directory. -/
def KWindowMode.directory (cursor : Nat) : KWindowMode :=
  .Directory ⟨cursor⟩

/-- The editing state KWindowMode::editing builds: cursor at the end of
content, scroll initialised to line_count(WINDOW_WIDTH) minus WINDOW_HEIGHT,
saturating at zero. -/
def editingStateOf (filename : List Nat) (buffer : Nat → Nat)
    (len directory_index : Nat) : EditingState :=
  let state : EditingState :=
    { filename := filename
      buffer := buffer
      len := len
      cursor := len
      scroll := 0
      directory_index := directory_index }
  { state with scroll := state.line_count WINDOW_WIDTH - WINDOW_HEIGHT }

/-- KWindowMode::editing. -/
def KWindowMode.editing (filename : List Nat) (buffer : Nat → Nat)
    (len directory_index : Nat) : KWindowMode :=
  .Editing (editingStateOf filename buffer len directory_index)

/-- One stored file of the Storage collaborator. Modelled from the spec:
the Storage service keeps named files with byte contents; names are stored
as fixed-width (10-byte, zero-padded) filename byte arrays. -/
structure KFile where
  name : List Nat
  content : List Nat
deriving DecidableEq

/-- Modelled from the spec: the state of the Storage collaborator (crate
csci320_vsfs, outside this repository) is the ordered sequence of its stored
files; `list_directory` reports them in this order and files are never
deleted. -/
structure FSState where
  files : List KFile
deriving DecidableEq

/-- Modelled from the spec: a filename padded with zero bytes to the
fixed directory width MAX_FILENAME_BYTES. -/
def padName (name : List Nat) : List Nat :=
  name ++ List.replicate (MAX_FILENAME_BYTES - name.length) 0

/-- Modelled from the spec: the directory position of the file carrying a
(padded) name, if any. -/
def FSState.findFile (fs : FSState) (p : List Nat) : Option Nat :=
  fs.files.findIdx? (fun f => f.name = p)

/-- Modelled from the spec: Storage `open_create` with create-or-truncate
semantics. A name longer than MAX_FILENAME_BYTES is invalid, an existing
name is truncated to empty content in place, a fresh name is appended when
the table of MAX_FILES_STORED files is not full; the handle is the directory
index. `none` is the Err result. -/
def FSState.open_create (fs : FSState) (name : List Nat) : Option (FSState × Nat) :=
  if name.length ≤ MAX_FILENAME_BYTES then
    let p := padName name
    match fs.findFile p with
    | some i => some (⟨fs.files.set i { name := p, content := [] }⟩, i)
    | none =>
      if fs.files.length < MAX_FILES_STORED then
        some (⟨fs.files ++ [{ name := p, content := [] }]⟩, fs.files.length)
      else none
  else none

/-- Modelled from the spec: Storage `open_read`, a handle for an existing
name or the Err result `none` (NotFound). -/
def FSState.open_read (fs : FSState) (name : List Nat) : Option Nat :=
  fs.findFile (padName name)

/-- Modelled from the spec: Storage `read` of a whole file into a zeroed
buffer of PRACTICAL_FILE_BUFFER_SIZE bytes, returning the byte count read
and the filled buffer. -/
def FSState.readFile (fs : FSState) (fd : Nat) : Nat × (Nat → Nat) :=
  let content := (fs.files.getD fd ⟨[], []⟩).content
  let size := min content.length PRACTICAL_FILE_BUFFER_SIZE
  (size, bufOf (content.take size))

/-- Modelled from the spec: Storage `write` of a byte sequence into the open
file, Err (`none`) when the bytes exceed MAX_FILE_BYTES. -/
def FSState.write (fs : FSState) (fd : Nat) (bytes : List Nat) : Option FSState :=
  if bytes.length ≤ MAX_FILE_BYTES then
    some ⟨fs.files.set fd { name := (fs.files.getD fd ⟨[], []⟩).name, content := bytes }⟩
  else none

/-- The kernel state (struct Kernel): focus, filename entry buffer, the four
window modes and the Storage state. The window-mode array is read and written
only through get_window_mode/set_window_mode, so it is modelled as a total
map over the four window identities. -/
structure Kernel where
  selected : KSelection
  filebar_buffer : TypingBuffer
  window_modes : KWindows → KWindowMode
  fs : FSState

/-- Kernel::get_window_mode. -/
def Kernel.get_window_mode (k : Kernel) (w : KWindows) : KWindowMode :=
  k.window_modes w

/-- Kernel::set_window_mode. -/
def Kernel.set_window_mode (k : Kernel) (w : KWindows) (m : KWindowMode) : Kernel :=
  { k with window_modes := fun w' => if w' = w then m else k.window_modes w' }

/-- Modelled from the spec: the display driver's drawable-character test.
The exact character set of the VGA font does not matter for any claim; it is
taken to be the printable ASCII range, which contains every character the
seeded programs use and excludes backspace and newline. -/
def is_drawable (c : Nat) : Bool :=
  32 ≤ c && c ≤ 126

/-- Whether a byte sequence is valid UTF-8 (Rust str::from_utf8 succeeding).
Modelled from the spec: every byte sequence the kernel can produce consists
of ASCII bytes (drawable characters, newline and zero padding), on which
UTF-8 validity is exactly the absence of bytes above 127. -/
def utf8Valid (l : List Nat) : Bool :=
  l.all (· < 128)

/-- Kernel::move_dir_cursor: forward the delta to the directory cursor of the
focused window when it is in directory mode, against the current file count
of the Storage listing. -/
def Kernel.move_dir_cursor (k : Kernel) (delta : Int) : Kernel :=
  match k.selected with
  | .window w =>
    match k.get_window_mode w with
    | .Directory d =>
      k.set_window_mode w (.Directory (d.move_cursor delta k.fs.files.length))
    | _ => k
  | .filebar => k

/-- The scroll update of Kernel::scroll_edit_text on the focused editing
state: saturating add of the delta, then clamp to line_count − 1 when the
result reaches line_count. -/
def scrollStep (e : EditingState) (delta : Int) : EditingState :=
  let e1 : EditingState := { e with scroll := ((e.scroll : Int) + delta).toNat }
  let line_count := e1.line_count WINDOW_WIDTH
  if line_count ≤ e1.scroll then { e1 with scroll := line_count - 1 } else e1

/-- Kernel::scroll_edit_text: apply the scroll update when the focused window
is in editing mode. -/
def Kernel.scroll_edit_text (k : Kernel) (delta : Int) : Kernel :=
  match k.selected with
  | .window w =>
    match k.get_window_mode w with
    | .Editing e => k.set_window_mode w (.Editing (scrollStep e delta))
    | _ => k
  | .filebar => k

/-- Kernel::switch_to_edit_mode: on a directory-mode window, assert the
cursor is inside the listing (`none` models the assert! panic), read the
chosen file through Storage and enter editing mode remembering the origin
index. `none` also models the panics of the unwraps on from_utf8 and
open_read. -/
def Kernel.switch_to_edit_mode (k : Kernel) (w : KWindows) : Option Kernel :=
  match k.get_window_mode w with
  | .Directory d =>
    let chosen_file := d.cursor
    let file_count := k.fs.files.length
    if chosen_file < file_count then
      let name := (k.fs.files.getD chosen_file ⟨[], []⟩).name
      if utf8Valid name then
        match k.fs.open_read name with
        | some fd =>
          let r := k.fs.readFile fd
          some (k.set_window_mode w (KWindowMode.editing name r.2 r.1 chosen_file))
        | none => none
      else none
    else none
  | _ => some k

/-- Kernel::switch_to_directory_mode: on an editing-mode window, write
buffer[0..len] back through Storage open_create/write/close and restore a
directory mode at the remembered origin index. `none` models the panics of
the unwraps (invalid UTF-8 filename, failing open_create or write) and of a
length beyond the buffer capacity in the slice. -/
def Kernel.switch_to_directory_mode (k : Kernel) (w : KWindows) : Option Kernel :=
  match k.get_window_mode w with
  | .Editing e =>
    if utf8Valid e.filename then
      match k.fs.open_create e.filename with
      | some (fs1, fd) =>
        if e.len ≤ PRACTICAL_FILE_BUFFER_SIZE then
          match fs1.write fd ((List.range e.len).map e.buffer) with
          | some fs2 =>
            some ({ k with fs := fs2 }.set_window_mode w (.Directory ⟨e.directory_index⟩))
          | none => none
        else none
      | none => none
    else none
  | _ => some k

/-- Kernel::switch_to_run_mode: on a directory-mode window, assert the cursor
is inside the listing, read the chosen file and hand its text to the
Interpreter collaborator; the running window keeps the program text. `none`
models the panics of the assert and of the unwraps. -/
def Kernel.switch_to_run_mode (k : Kernel) (w : KWindows) : Option Kernel :=
  match k.get_window_mode w with
  | .Directory d =>
    let chosen_file := d.cursor
    let file_count := k.fs.files.length
    if chosen_file < file_count then
      let name := (k.fs.files.getD chosen_file ⟨[], []⟩).name
      if utf8Valid name then
        match k.fs.open_read name with
        | some fd =>
          let r := k.fs.readFile fd
          let program := (List.range r.1).map r.2
          if utf8Valid program then
            some (k.set_window_mode w (.Running program))
          else none
        | none => none
      else none
    else none
  | _ => some k

/-- Kernel::try_create_file: take the entered bytes, clear the filename
buffer, and when the bytes are valid UTF-8 create the file and close the
handle at once. A failing open_create is unwrapped in the source, so it
aborts (`none`); invalid UTF-8 is abandoned silently. -/
def Kernel.try_create_file (k : Kernel) : Option Kernel :=
  let name_len := k.filebar_buffer.cursor
  let name_bytes := k.filebar_buffer.buffer
  let k1 : Kernel := { k with filebar_buffer := TypingBuffer.clear }
  if name_len ≤ MAX_FILENAME_BYTES then
    let name := (List.range name_len).map name_bytes
    if utf8Valid name then
      match k1.fs.open_create name with
      | some (fs1, _) => some { k1 with fs := fs1 }
      | none => none
    else some k1
  else none

/-- The raw key codes the kernel distinguishes (the other variants of the
driver's KeyCode fall to the wildcard arm). -/
inductive KeyCode
  | F1
  | F2
  | F3
  | F4
  | F5
  | F6
  | F7
  | F8
  | ArrowUp
  | ArrowDown
  | ArrowLeft
  | ArrowRight
  | Other
deriving DecidableEq

/-- A decoded key event of the driver: a raw named key or a unicode
character, the character modelled by its code point. -/
inductive DecodedKey
  | rawKey (code : KeyCode)
  | unicode (c : Nat)

/-- Kernel::handle_raw. -/
def Kernel.handle_raw (k : Kernel) (key : KeyCode) : Option Kernel :=
  match key with
  | .F1 => some { k with selected := .window .F1 }
  | .F2 => some { k with selected := .window .F2 }
  | .F3 => some { k with selected := .window .F3 }
  | .F4 => some { k with selected := .window .F4 }
  | .F5 => some { k with selected := .filebar }
  | .F6 =>
    match k.selected with
    | .window w => k.switch_to_directory_mode w
    | .filebar => some k
  | .F7 => some (k.scroll_edit_text (-1))
  | .F8 => some (k.scroll_edit_text 1)
  | .ArrowUp => some (k.move_dir_cursor (-3))
  | .ArrowDown => some (k.move_dir_cursor 3)
  | .ArrowLeft => some (k.move_dir_cursor (-1))
  | .ArrowRight => some (k.move_dir_cursor 1)
  | .Other => some k

/-- Kernel::handle_unicode, with the source's match order: in the filebar,
backspace, then Enter, then drawable characters; on a directory window, the
'e' and 'r' transitions; on an editing window, newline, then drawable
characters, then backspace; a unicode key on a running window hits todo!()
and panics (`none`). -/
def Kernel.handle_unicode (k : Kernel) (c : Nat) : Option Kernel :=
  match k.selected with
  | .filebar =>
    if c = 8 then some { k with filebar_buffer := k.filebar_buffer.backspace }
    else if c = 10 then k.try_create_file
    else if is_drawable c then some { k with filebar_buffer := k.filebar_buffer.type_char c }
    else some k
  | .window w =>
    match k.get_window_mode w with
    | .Directory _ =>
      if c = 101 then k.switch_to_edit_mode w
      else if c = 114 then k.switch_to_run_mode w
      else some k
    | .Editing e =>
      let e' :=
        if c = 10 then e.type_char 10
        else if is_drawable c then e.type_char c
        else if c = 8 then e.backspace
        else e
      some (k.set_window_mode w (.Editing e'))
    | .Running _ => none

/-- Kernel::key, one dispatched key event; the unconditional redraw that
follows does not change the model state. `none` models a kernel panic. -/
def Kernel.key (k : Kernel) (key : DecodedKey) : Option Kernel :=
  match key with
  | .rawKey code => k.handle_raw code
  | .unicode c => k.handle_unicode c

/-- Program text of the seeded file "hello" (const HELLO), as UTF-8 bytes:
print("Hello, world!") -/
def HELLO : List Nat :=
  [112, 114, 105, 110, 116, 40, 34, 72, 101, 108, 108, 111, 44, 32, 119, 111, 114, 108, 100,
   33, 34, 41]

/-- Program text of the seeded file "nums" (const NUMS): two print lines. -/
def NUMS : List Nat :=
  [112, 114, 105, 110, 116, 40, 49, 41, 10, 112, 114, 105, 110, 116, 40, 50, 53, 55, 41]

/-- Program text of the seeded file "add_one" (const ADD_ONE). -/
def ADD_ONE : List Nat :=
  [120, 32, 58, 61, 32, 105, 110, 112, 117, 116, 40, 34, 69, 110, 116, 101, 114, 32, 97, 32,
   110, 117, 109, 98, 101, 114, 34, 41, 10, 120, 32, 58, 61, 32, 40, 120, 32, 43, 32, 49, 41,
   10, 112, 114, 105, 110, 116, 40, 120, 41]

/-- Program text of the seeded file "countdown" (const COUNTDOWN). -/
def COUNTDOWN : List Nat :=
  [99, 111, 117, 110, 116, 32, 58, 61, 32, 105, 110, 112, 117, 116, 40, 34, 99, 111, 117, 110,
   116, 34, 41, 10, 119, 104, 105, 108, 101, 32, 40, 99, 111, 117, 110, 116, 32, 62, 32, 48,
   41, 32, 123, 10, 32, 32, 32, 32, 99, 111, 117, 110, 116, 32, 58, 61, 32, 40, 99, 111, 117,
   110, 116, 32, 45, 32, 49, 41, 10, 125, 10, 112, 114, 105, 110, 116, 40, 34, 100, 111, 110,
   101, 34, 41, 10, 112, 114, 105, 110, 116, 40, 99, 111, 117, 110, 116, 41]

/-- Program text of the seeded file "average" (const AVERAGE). -/
def AVERAGE : List Nat :=
  [115, 117, 109, 32, 58, 61, 32, 48, 10, 99, 111, 117, 110, 116, 32, 58, 61, 32, 48, 10, 97,
   118, 101, 114, 97, 103, 105, 110, 103, 32, 58, 61, 32, 116, 114, 117, 101, 10, 119, 104,
   105, 108, 101, 32, 97, 118, 101, 114, 97, 103, 105, 110, 103, 32, 123, 10, 32, 32, 32, 32,
   110, 117, 109, 32, 58, 61, 32, 105, 110, 112, 117, 116, 40, 34, 69, 110, 116, 101, 114, 32,
   97, 32, 110, 117, 109, 98, 101, 114, 58, 34, 41, 10, 32, 32, 32, 32, 105, 102, 32, 40, 110,
   117, 109, 32, 61, 61, 32, 34, 113, 117, 105, 116, 34, 41, 32, 123, 10, 32, 32, 32, 32, 32,
   32, 32, 32, 97, 118, 101, 114, 97, 103, 105, 110, 103, 32, 58, 61, 32, 102, 97, 108, 115,
   101, 10, 32, 32, 32, 32, 125, 32, 101, 108, 115, 101, 32, 123, 10, 32, 32, 32, 32, 32, 32,
   32, 32, 115, 117, 109, 32, 58, 61, 32, 40, 115, 117, 109, 32, 43, 32, 110, 117, 109, 41,
   10, 32, 32, 32, 32, 32, 32, 32, 32, 99, 111, 117, 110, 116, 32, 58, 61, 32, 40, 99, 111,
   117, 110, 116, 32, 43, 32, 49, 41, 10, 32, 32, 32, 32, 125, 10, 125, 10, 112, 114, 105,
   110, 116, 40, 40, 115, 117, 109, 32, 47, 32, 99, 111, 117, 110, 116, 41, 41]

/-- Program text of the seeded file "pi" (const PI). -/
def PI : List Nat :=
  [115, 117, 109, 32, 58, 61, 32, 48, 10, 105, 32, 58, 61, 32, 48, 10, 110, 101, 103, 32, 58,
   61, 32, 102, 97, 108, 115, 101, 10, 116, 101, 114, 109, 115, 32, 58, 61, 32, 105, 110, 112,
   117, 116, 40, 34, 78, 117, 109, 32, 116, 101, 114, 109, 115, 58, 34, 41, 10, 119, 104, 105,
   108, 101, 32, 40, 105, 32, 60, 32, 116, 101, 114, 109, 115, 41, 32, 123, 10, 32, 32, 32,
   32, 116, 101, 114, 109, 32, 58, 61, 32, 40, 49, 46, 48, 32, 47, 32, 40, 40, 50, 46, 48, 32,
   42, 32, 105, 41, 32, 43, 32, 49, 46, 48, 41, 41, 10, 32, 32, 32, 32, 105, 102, 32, 110,
   101, 103, 32, 123, 10, 32, 32, 32, 32, 32, 32, 32, 32, 116, 101, 114, 109, 32, 58, 61, 32,
   45, 116, 101, 114, 109, 10, 32, 32, 32, 32, 125, 10, 32, 32, 32, 32, 115, 117, 109, 32, 58,
   61, 32, 40, 115, 117, 109, 32, 43, 32, 116, 101, 114, 109, 41, 10, 32, 32, 32, 32, 110,
   101, 103, 32, 58, 61, 32, 110, 111, 116, 32, 110, 101, 103, 10, 32, 32, 32, 32, 105, 32,
   58, 61, 32, 40, 105, 32, 43, 32, 49, 41, 10, 125, 10, 112, 114, 105, 110, 116, 40, 40, 52,
   32, 42, 32, 115, 117, 109, 41, 41]

/-- The six seeded (filename, contents) pairs of initial_files, in seeding
order: hello, nums, add_one, countdown, average, pi. -/
def initialFiles : List (List Nat × List Nat) :=
  [([104, 101, 108, 108, 111], HELLO),
   ([110, 117, 109, 115], NUMS),
   ([97, 100, 100, 95, 111, 110, 101], ADD_ONE),
   ([99, 111, 117, 110, 116, 100, 111, 119, 110], COUNTDOWN),
   ([97, 118, 101, 114, 97, 103, 101], AVERAGE),
   ([112, 105], PI)]

/-- One seeding step of initial_files: open_create the name, write the
contents, close (a no-op in the model); `none` models the unwrap panics. -/
def seedOne (fs : FSState) (nc : List Nat × List Nat) : Option FSState := do
  let r ← fs.open_create nc.1
  r.1.write r.2 nc.2

/-- The Storage state after initial_files has seeded the empty disk. -/
def initFS : Option FSState :=
  initialFiles.foldlM seedOne ⟨[]⟩

/-- The kernel fields of Kernel::new around a given Storage state: window F1
focused, empty filename buffer, all four windows in directory mode at
cursor 0. -/
def initKernel (fs : FSState) : Kernel :=
  { selected := .window .F1
    filebar_buffer := { buffer := fun _ => 0, cursor := 0 }
    window_modes := fun _ => KWindowMode.directory 0
    fs := fs }

/-- Kernel::new: the freshly seeded Storage state under the initial kernel
fields (`none` would model a panic while seeding, which does not occur). -/
def Kernel.new : Option Kernel :=
  initFS.map initKernel

/-- The kernel states reachable from Kernel::new by dispatched key events
that do not panic. -/
inductive Reachable : Kernel → Prop
  | init (k : Kernel) : Kernel.new = some k → Reachable k
  | step (s : Kernel) (e : DecodedKey) (s' : Kernel) :
      Reachable s → s.key e = some s' → Reachable s'


/-- The line total of read_line's own scan over the whole buffer capacity:
the same stepping as readLineAux (no stop at a zero byte, one byte consumed
past a newline, no byte consumed on a wrap), returning how many lines the
full scan completes. -/
def rlCountAux (f : Nat → Nat) (current_line line_start line_len : Nat) : Nat :=
  if h : line_start + line_len < PRACTICAL_FILE_BUFFER_SIZE then
    if f (line_start + line_len) = 10 then
      rlCountAux f (current_line + 1) (line_start + line_len + 1) 0
    else if line_len = WINDOW_WIDTH then
      rlCountAux f (current_line + 1) (line_start + line_len) 0
    else
      rlCountAux f current_line line_start (line_len + 1)
  else current_line
termination_by 2 * (PRACTICAL_FILE_BUFFER_SIZE - (line_start + line_len)) +
  (if line_len = WINDOW_WIDTH then 1 else 0)
decreasing_by
  all_goals
    have hww : WINDOW_WIDTH = 33 := rfl
    split <;> (try split) <;> omega

/-- The number of lines read_line's scan finds in the buffer: the bound below
which read_line returns a window. -/
def EditingState.rl_line_count (e : EditingState) : Nat :=
  rlCountAux e.buffer 0 0 0

theorem lineCountAux_ge (f : Nat → Nat) (W : Nat) :
    ∀ n count cursor len, PRACTICAL_FILE_BUFFER_SIZE - cursor ≤ n →
      count ≤ lineCountAux f W count cursor len := by
  intro n
  induction n with
  | zero =>
    intro count cursor len hn
    rw [lineCountAux]
    split
    · omega
    · exact Nat.le_refl _
  | succ n ih =>
    intro count cursor len hn
    rw [lineCountAux]
    split
    · split
      · exact Nat.le_refl _
      · split
        · exact Nat.le_trans (Nat.le_succ count) (ih (count + 1) (cursor + 2) 0 (by omega))
        · split
          · exact Nat.le_trans (Nat.le_succ count) (ih (count + 1) (cursor + 1) 0 (by omega))
          · exact ih count (cursor + 1) (len + 1) (by omega)
    · exact Nat.le_refl _

theorem EditingState.line_count_pos (e : EditingState) (W : Nat) :
    1 ≤ e.line_count W :=
  lineCountAux_ge e.buffer W PRACTICAL_FILE_BUFFER_SIZE 1 0 0 (Nat.le_refl _)

theorem rlCountAux_ge (f : Nat → Nat) :
    ∀ n current_line line_start line_len,
      2 * (PRACTICAL_FILE_BUFFER_SIZE - (line_start + line_len)) +
        (if line_len = WINDOW_WIDTH then 1 else 0) ≤ n →
      current_line ≤ rlCountAux f current_line line_start line_len := by
  intro n
  induction n with
  | zero =>
    intro cl ls ll hn
    rw [rlCountAux]
    split
    · split at hn <;> omega
    · exact Nat.le_refl _
  | succ n ih =>
    intro cl ls ll hn
    rw [rlCountAux]
    split
    · rename_i hpos
      have hww : WINDOW_WIDTH = 33 := rfl
      split
      · exact Nat.le_trans (Nat.le_succ cl)
          (ih (cl + 1) (ls + ll + 1) 0 (by split at hn <;> split <;> omega))
      · split
        · rename_i hw
          exact Nat.le_trans (Nat.le_succ cl)
            (ih (cl + 1) (ls + ll) 0 (by split at hn <;> split <;> omega))
        · rename_i hw
          exact ih cl ls (ll + 1) (by split at hn <;> split <;> omega)
    · exact Nat.le_refl _

theorem rlCountAux_ge' (f : Nat → Nat) (current_line line_start line_len : Nat) :
    current_line ≤ rlCountAux f current_line line_start line_len :=
  rlCountAux_ge f
    (2 * (PRACTICAL_FILE_BUFFER_SIZE - (line_start + line_len)) +
      (if line_len = WINDOW_WIDTH then 1 else 0))
    current_line line_start line_len (Nat.le_refl _)

theorem readLineAux_isSome_iff (f : Nat → Nat) (line : Nat) :
    ∀ n current_line line_start line_len line_buf,
      2 * (PRACTICAL_FILE_BUFFER_SIZE - (line_start + line_len)) +
        (if line_len = WINDOW_WIDTH then 1 else 0) ≤ n →
      ((readLineAux f line line_buf current_line line_start line_len).isSome = true ↔
        line < rlCountAux f current_line line_start line_len) := by
  intro n
  induction n with
  | zero =>
    intro cl ls ll buf hn
    rw [readLineAux]
    by_cases hcl : line < cl
    · rw [if_pos hcl]
      exact iff_of_true rfl (Nat.lt_of_lt_of_le hcl (rlCountAux_ge' f cl ls ll))
    · rw [if_neg hcl]
      by_cases hpos : ls + ll < PRACTICAL_FILE_BUFFER_SIZE
      · exact absurd hn (by split <;> omega)
      · rw [dif_neg hpos, rlCountAux, dif_neg hpos]
        exact iff_of_false (by simp) hcl
  | succ n ih =>
    intro cl ls ll buf hn
    rw [readLineAux]
    by_cases hcl : line < cl
    · rw [if_pos hcl]
      exact iff_of_true rfl (Nat.lt_of_lt_of_le hcl (rlCountAux_ge' f cl ls ll))
    · rw [if_neg hcl]
      have hww : WINDOW_WIDTH = 33 := rfl
      by_cases hpos : ls + ll < PRACTICAL_FILE_BUFFER_SIZE
      · rw [dif_pos hpos, rlCountAux, dif_pos hpos]
        by_cases hb : f (ls + ll) = 10
        · rw [if_pos hb, if_pos hb]
          exact ih (cl + 1) (ls + ll + 1) 0 buf (by split at hn <;> split <;> omega)
        · rw [if_neg hb, if_neg hb]
          by_cases hw : ll = WINDOW_WIDTH
          · rw [if_pos hw, if_pos hw]
            exact ih (cl + 1) (ls + ll) 0 buf (by split at hn <;> split <;> omega)
          · rw [if_neg hw, if_neg hw]
            exact ih cl ls (ll + 1) _ (by split at hn <;> split <;> omega)
      · rw [dif_neg hpos, rlCountAux, dif_neg hpos]
        exact iff_of_false (by simp) hcl

theorem line_count_congr {e e' : EditingState} (h : e.buffer = e'.buffer) (W : Nat) :
    e.line_count W = e'.line_count W := by
  unfold EditingState.line_count
  rw [h]

theorem line_count_set_scroll (e : EditingState) (x W : Nat) :
    EditingState.line_count { e with scroll := x } W = e.line_count W :=
  rfl

theorem scrollStep_buffer (e : EditingState) (delta : Int) :
    (scrollStep e delta).buffer = e.buffer := by
  simp only [scrollStep]
  split <;> rfl

theorem scrollStep_scroll_lt (e : EditingState) (delta : Int) :
    (scrollStep e delta).scroll < (scrollStep e delta).line_count WINDOW_WIDTH := by
  have hpos := e.line_count_pos WINDOW_WIDTH
  simp only [scrollStep, line_count_set_scroll]
  split <;> simp only [line_count_set_scroll] <;> omega

theorem foldl_scrollStep_lt (deltas : List Int) :
    ∀ e : EditingState, e.scroll < e.line_count WINDOW_WIDTH →
      (deltas.foldl scrollStep e).scroll < (deltas.foldl scrollStep e).line_count WINDOW_WIDTH := by
  induction deltas with
  | nil => exact fun e h => h
  | cons d ds ih => exact fun e _ => ih (scrollStep e d) (scrollStep_scroll_lt e d)

theorem foldl_scrollStep_buffer (deltas : List Int) :
    ∀ e : EditingState, (deltas.foldl scrollStep e).buffer = e.buffer := by
  induction deltas with
  | nil => exact fun e => rfl
  | cons d ds ih =>
    intro e
    rw [List.foldl_cons, ih (scrollStep e d), scrollStep_buffer]

/-- Claim C1: the spec predicts line_count = 4 (lines of 3, 3, 3, 1) for the
ten-byte buffer abcdefghij at wrap width 3, matching its scan rule and the
scan of read_line; the source's line_count instead returns 3, because its
wrap branch advances the cursor past the byte at the wrap column without
counting it (and its newline branch advances by two), so each wrapped line
consumes four bytes here.  This theorem evaluates the code at the failing
input. -/
theorem claim1_line_count_wrap3 :
    (edOf [97, 98, 99, 100, 101, 102, 103, 104, 105, 106]).line_count 3 = 3 := by
  simp [EditingState.line_count, edOf, lineCountAux, bufOf,
    PRACTICAL_FILE_BUFFER_SIZE, MAX_FILE_BYTES, MAX_FILE_BLOCKS, BLOCK_SIZE]

theorem readLine_ab_cd_0 :
    (edOf [97, 98, 10, 99, 100]).read_line 0 = some ([97, 98] ++ List.replicate 31 32) := by
  simp [EditingState.read_line, edOf, readLineAux, bufOf,
    PRACTICAL_FILE_BUFFER_SIZE, MAX_FILE_BYTES, MAX_FILE_BLOCKS, BLOCK_SIZE,
    WINDOW_WIDTH, WINDOWS_WIDTH, BUFFER_WIDTH, TASK_MANAGER_WIDTH, List.replicate]

theorem readLine_ab_cd_1 :
    (edOf [97, 98, 10, 99, 100]).read_line 1 = some ([99, 100] ++ List.replicate 31 0) := by
  simp [EditingState.read_line, edOf, readLineAux, bufOf,
    PRACTICAL_FILE_BUFFER_SIZE, MAX_FILE_BYTES, MAX_FILE_BLOCKS, BLOCK_SIZE,
    WINDOW_WIDTH, WINDOWS_WIDTH, BUFFER_WIDTH, TASK_MANAGER_WIDTH, List.replicate]

/-- Claim C2 counterexample: for the buffer holding the bytes of ab, newline,
cd, read_line 1 is not the space-padded cd window the claim describes —
neither at the claimed wrap width 10 nor at the fixed window width 33 — since
the scan copies the zero filler after the content into the window. -/
theorem claim2_counterexample :
    (edOf [97, 98, 10, 99, 100]).read_line 1 ≠ some ([99, 100] ++ List.replicate 8 32) ∧
    (edOf [97, 98, 10, 99, 100]).read_line 1 ≠ some ([99, 100] ++ List.replicate 31 32) := by
  refine ⟨?_, ?_⟩ <;> rw [readLine_ab_cd_1] <;> decide

/-- Claim C2, amended: for the buffer ab, newline, cd at wrap width 10,
line_count returns 2; read_line windows are WINDOW_WIDTH = 33 bytes wide
regardless of that width; read_line 0 is ab padded with 31 spaces, while
read_line 1 is cd followed by 31 zero bytes, because read_line does not stop
at the zero terminator and copies the zero filler as line content. -/
theorem claim2_wrap_example :
    (edOf [97, 98, 10, 99, 100]).line_count 10 = 2 ∧
    (edOf [97, 98, 10, 99, 100]).read_line 0 = some ([97, 98] ++ List.replicate 31 32) ∧
    (edOf [97, 98, 10, 99, 100]).read_line 1 = some ([99, 100] ++ List.replicate 31 0) :=
  ⟨by simp [EditingState.line_count, edOf, lineCountAux, bufOf,
      PRACTICAL_FILE_BUFFER_SIZE, MAX_FILE_BYTES, MAX_FILE_BLOCKS, BLOCK_SIZE],
   readLine_ab_cd_0, readLine_ab_cd_1⟩

/-- Claim C3 counterexample: on the empty buffer, line_count (stopping at the
zero terminator) is 1, yet read_line 1 still returns a window, because
read_line never stops at zero bytes and wraps its way through the whole
capacity; so read_line n = Some is not equivalent to n < line_count. -/
theorem claim3_counterexample :
    ((edOf []).read_line 1).isSome = true ∧ ¬(1 < (edOf []).line_count WINDOW_WIDTH) := by
  have hlc : (edOf []).line_count WINDOW_WIDTH = 1 := by
    simp [EditingState.line_count, edOf, lineCountAux, bufOf,
      PRACTICAL_FILE_BUFFER_SIZE, MAX_FILE_BYTES, MAX_FILE_BLOCKS, BLOCK_SIZE]
  refine ⟨?_, by omega⟩
  simp [EditingState.read_line, edOf, readLineAux, bufOf,
    PRACTICAL_FILE_BUFFER_SIZE, MAX_FILE_BYTES, MAX_FILE_BLOCKS, BLOCK_SIZE,
    WINDOW_WIDTH, WINDOWS_WIDTH, BUFFER_WIDTH, TASK_MANAGER_WIDTH, List.replicate]

/-- Claim C3, amended: read_line counts lines by its own scan rule, which
differs from line_count's in three ways (it treats zero bytes as content
instead of stopping, it advances one byte past a newline where line_count
advances two, and it consumes no byte at a wrap where line_count consumes
one); for every buffer state and index n, read_line n returns a window
exactly when n is below the line total rl_line_count of that scan over the
full capacity. -/
theorem claim3_read_line_some_iff (e : EditingState) (n : Nat) :
    ((e.read_line n).isSome = true) ↔ n < e.rl_line_count :=
  readLineAux_isSome_iff e.buffer n (2 * PRACTICAL_FILE_BUFFER_SIZE + 1) 0 0 0
    (List.replicate WINDOW_WIDTH 32) (by decide)

/-- Claim C4: with the cursor at capacity, type_char is a no-op on the text
edit buffer (capacity PRACTICAL_FILE_BUFFER_SIZE) and on the filename entry
buffer (capacity MAX_FILENAME_BYTES): the guard refuses the insertion, so
the returned state is the input state unchanged and no write outside the
array can happen. -/
theorem claim4_type_char_at_capacity (e : EditingState) (t : TypingBuffer) (c c' : Nat)
    (he : e.cursor = PRACTICAL_FILE_BUFFER_SIZE) (ht : t.cursor = MAX_FILENAME_BYTES) :
    e.type_char c = e ∧ t.type_char c' = t := by
  constructor
  · unfold EditingState.type_char
    rw [he]
    simp
  · unfold TypingBuffer.type_char
    rw [ht]
    simp

/-- An editing state with cursor and length at full capacity. -/
def edAtCap : EditingState :=
  { filename := List.replicate MAX_FILENAME_BYTES 0
    buffer := fun _ => 0
    len := PRACTICAL_FILE_BUFFER_SIZE
    cursor := PRACTICAL_FILE_BUFFER_SIZE
    scroll := 0
    directory_index := 0 }

/-- A filename entry buffer with the cursor at its 10-byte capacity. -/
def tbAtCap : TypingBuffer :=
  { buffer := fun _ => 0, cursor := MAX_FILENAME_BYTES }

theorem claim4_witness :
    edAtCap.type_char 97 = edAtCap ∧ tbAtCap.type_char 98 = tbAtCap :=
  claim4_type_char_at_capacity edAtCap tbAtCap 97 98 rfl rfl

/-- Claim C5: from a cursor inside `[0, file_count)`, move_cursor with any
signed delta (the arrow keys pass −1, 1, −3 and 3) keeps the cursor inside
`[0, file_count)`: an in-range target is adopted, an out-of-range target
leaves the state unchanged. -/
theorem claim5_move_cursor_in_range (d : DirectoryState) (delta : Int) (file_count : Nat)
    (h : d.cursor < file_count) :
    (d.move_cursor delta file_count).cursor < file_count ∧
    (0 ≤ (d.cursor : Int) + delta ∧ (d.cursor : Int) + delta < (file_count : Int) →
      ((d.move_cursor delta file_count).cursor : Int) = (d.cursor : Int) + delta) ∧
    (¬(0 ≤ (d.cursor : Int) + delta ∧ (d.cursor : Int) + delta < (file_count : Int)) →
      d.move_cursor delta file_count = d) := by
  by_cases hc : 0 ≤ (d.cursor : Int) + delta ∧ (d.cursor : Int) + delta < (file_count : Int)
  · simp only [DirectoryState.move_cursor, if_pos hc]
    exact ⟨by omega, fun _ => by omega, fun hn => absurd hc hn⟩
  · simp only [DirectoryState.move_cursor, if_neg hc]
    exact ⟨h, fun hcc => absurd hcc hc, fun _ => trivial⟩

theorem claim5_witness :
    ((⟨0⟩ : DirectoryState).cursor < 6) ∧
    ((⟨0⟩ : DirectoryState).move_cursor 3 6).cursor < 6 :=
  ⟨by decide, (claim5_move_cursor_in_range ⟨0⟩ 3 6 (by decide)).1⟩

/-- Claim C6: any sequence of scroll updates (F7 and F8 pass deltas −1 and 1;
the theorem allows arbitrary deltas) leaves the scroll offset within
`[0, line_count(WINDOW_WIDTH) − 1]`: the update saturates at zero and clamps
to line_count − 1, and line_count is at least 1, so after one or more
updates the offset is in range regardless of the starting offset. -/
theorem claim6_scroll_stays_in_range (e : EditingState) (delta : Int) (deltas : List Int) :
    (deltas.foldl scrollStep (scrollStep e delta)).scroll ≤ e.line_count WINDOW_WIDTH - 1 := by
  have h1 := foldl_scrollStep_lt deltas (scrollStep e delta) (scrollStep_scroll_lt e delta)
  have h2 : (deltas.foldl scrollStep (scrollStep e delta)).line_count WINDOW_WIDTH
      = e.line_count WINDOW_WIDTH := by
    apply line_count_congr
    rw [foldl_scrollStep_buffer, scrollStep_buffer]
  omega

/-- The editor operations a focused editing window applies. -/
inductive EditOp
  | typeChar (c : Nat)
  | backspaceOp

/-- Apply one editor operation. -/
def applyOp (e : EditingState) : EditOp → EditingState
  | .typeChar c => e.type_char c
  | .backspaceOp => e.backspace

/-- Apply a sequence of editor operations. -/
def applyOps (e : EditingState) (ops : List EditOp) : EditingState :=
  ops.foldl applyOp e

/-- An editing state with interior cursor used to exhibit stale bytes:
content bytes 5, 7, length 2, cursor 1 (the data model allows any cursor in
`[0, length]`). -/
def edStale : EditingState :=
  { filename := List.replicate MAX_FILENAME_BYTES 0
    buffer := bufOf [5, 7]
    len := 2
    cursor := 1
    scroll := 0
    directory_index := 0 }

/-- Claim C9: bytes beyond `length` are not guaranteed zero after edits.
From a state satisfying the data-model invariant cursor ≤ length whose bytes
at indices ≥ length are all zero, a single backspace leaves a nonzero byte
at an index ≥ length: backspace zeroes only the byte at cursor − 1 while
shrinking length by one, so with cursor < length the byte at the old
length − 1 survives beyond the new length. -/
theorem claim9_stale_bytes_exist :
    ∃ (e : EditingState) (ops : List EditOp),
      e.cursor ≤ e.len ∧ (∀ i, e.len ≤ i → e.buffer i = 0) ∧
      ¬(∀ i, (applyOps e ops).len ≤ i → (applyOps e ops).buffer i = 0) := by
  refine ⟨edStale, [EditOp.backspaceOp], by decide, ?_, ?_⟩
  · intro i hi
    have hlen : edStale.len = 2 := rfl
    obtain ⟨j, rfl⟩ : ∃ j, i = j + 2 := ⟨i - 2, by omega⟩
    rfl
  · intro hall
    exact absurd (hall 1 (by decide)) (by decide)

theorem get_set_window_mode (k : Kernel) (w w' : KWindows) (m : KWindowMode) :
    (k.set_window_mode w m).get_window_mode w'
      = if w' = w then m else k.get_window_mode w' :=
  rfl

theorem open_create_mono {fs : FSState} {name : List Nat} {fs' : FSState} {fd : Nat}
    (h : fs.open_create name = some (fs', fd)) :
    fs.files.length ≤ fs'.files.length := by
  unfold FSState.open_create at h
  by_cases hl : name.length ≤ MAX_FILENAME_BYTES
  · rw [if_pos hl] at h
    cases hff : fs.findFile (padName name) with
    | some i =>
      simp only [hff, Option.some.injEq, Prod.mk.injEq] at h
      obtain ⟨h1, h2⟩ := h
      rw [← h1]
      simp
    | none =>
      simp only [hff] at h
      by_cases hfull : fs.files.length < MAX_FILES_STORED
      · rw [if_pos hfull] at h
        simp only [Option.some.injEq, Prod.mk.injEq] at h
        obtain ⟨h1, h2⟩ := h
        rw [← h1]
        simp
      · rw [if_neg hfull] at h
        exact Option.noConfusion h
  · rw [if_neg hl] at h
    exact Option.noConfusion h

theorem write_length {fs : FSState} {fd : Nat} {bytes : List Nat} {fs' : FSState}
    (h : fs.write fd bytes = some fs') :
    fs'.files.length = fs.files.length := by
  unfold FSState.write at h
  by_cases hl : bytes.length ≤ MAX_FILE_BYTES
  · rw [if_pos hl] at h
    simp only [Option.some.injEq] at h
    rw [← h]
    simp
  · rw [if_neg hl] at h
    exact Option.noConfusion h

theorem type_char_directory_index (e : EditingState) (c : Nat) :
    (e.type_char c).directory_index = e.directory_index := by
  unfold EditingState.type_char
  split <;> rfl

theorem backspace_directory_index (e : EditingState) :
    e.backspace.directory_index = e.directory_index := by
  unfold EditingState.backspace
  split <;> rfl

theorem scrollStep_directory_index (e : EditingState) (delta : Int) :
    (scrollStep e delta).directory_index = e.directory_index := by
  simp only [scrollStep]
  split <;> rfl

/-- The per-window part of the kernel invariant: a directory cursor, or the
origin index remembered by an editing window, is below the file count. -/
def InvMode : KWindowMode → Nat → Prop
  | .Directory d, n => d.cursor < n
  | .Editing e, n => e.directory_index < n
  | .Running _, _ => True

/-- The kernel invariant carried through every dispatched key event: every
window satisfies InvMode against the current Storage file count. -/
def KernelInv (k : Kernel) : Prop :=
  ∀ w, InvMode (k.get_window_mode w) k.fs.files.length

theorem invMode_mono {m : KWindowMode} {n n' : Nat} (h : InvMode m n) (hle : n ≤ n') :
    InvMode m n' := by
  cases m with
  | Directory d => exact Nat.lt_of_lt_of_le h hle
  | Editing e => exact Nat.lt_of_lt_of_le h hle
  | Running p => trivial

theorem inv_set_window_mode {k : Kernel} {w : KWindows} {m : KWindowMode}
    (h : KernelInv k) (hm : InvMode m k.fs.files.length) :
    KernelInv (k.set_window_mode w m) := by
  intro w'
  show InvMode (if w' = w then m else k.get_window_mode w') k.fs.files.length
  split
  · exact hm
  · exact h w'

theorem inv_move_dir_cursor {k : Kernel} (h : KernelInv k) (delta : Int) :
    KernelInv (k.move_dir_cursor delta) := by
  cases hsel : k.selected with
  | filebar =>
    simp only [Kernel.move_dir_cursor, hsel]
    exact h
  | window w =>
    cases hm : k.get_window_mode w with
    | Directory d =>
      simp only [Kernel.move_dir_cursor, hsel, hm]
      apply inv_set_window_mode h
      have hd : d.cursor < k.fs.files.length := by
        have hw := h w
        rw [hm] at hw
        exact hw
      show (d.move_cursor delta k.fs.files.length).cursor < k.fs.files.length
      simp only [DirectoryState.move_cursor]
      split
      · rename_i hc
        show ((d.cursor : Int) + delta).toNat < k.fs.files.length
        omega
      · exact hd
    | Editing e =>
      simp only [Kernel.move_dir_cursor, hsel, hm]
      exact h
    | Running p =>
      simp only [Kernel.move_dir_cursor, hsel, hm]
      exact h

theorem inv_scroll_edit_text {k : Kernel} (h : KernelInv k) (delta : Int) :
    KernelInv (k.scroll_edit_text delta) := by
  cases hsel : k.selected with
  | filebar =>
    simp only [Kernel.scroll_edit_text, hsel]
    exact h
  | window w =>
    cases hm : k.get_window_mode w with
    | Directory d =>
      simp only [Kernel.scroll_edit_text, hsel, hm]
      exact h
    | Editing e =>
      simp only [Kernel.scroll_edit_text, hsel, hm]
      apply inv_set_window_mode h
      show (scrollStep e delta).directory_index < k.fs.files.length
      rw [scrollStep_directory_index]
      have hw := h w
      rw [hm] at hw
      exact hw
    | Running p =>
      simp only [Kernel.scroll_edit_text, hsel, hm]
      exact h

theorem inv_switch_to_edit {k k' : Kernel} {w : KWindows} (h : KernelInv k)
    (hs : k.switch_to_edit_mode w = some k') : KernelInv k' := by
  unfold Kernel.switch_to_edit_mode at hs
  cases hm : k.get_window_mode w with
  | Directory d =>
    simp only [hm] at hs
    by_cases hlt : d.cursor < k.fs.files.length
    · rw [if_pos hlt] at hs
      by_cases hv : utf8Valid (k.fs.files.getD d.cursor ⟨[], []⟩).name = true
      · rw [if_pos hv] at hs
        cases hfd : k.fs.open_read (k.fs.files.getD d.cursor ⟨[], []⟩).name with
        | some fd =>
          simp only [hfd, Option.some.injEq] at hs
          subst hs
          exact inv_set_window_mode h hlt
        | none =>
          simp only [hfd] at hs
          exact Option.noConfusion hs
      · rw [if_neg hv] at hs
        exact Option.noConfusion hs
    · rw [if_neg hlt] at hs
      exact Option.noConfusion hs
  | Editing e =>
    simp only [hm, Option.some.injEq] at hs
    subst hs
    exact h
  | Running p =>
    simp only [hm, Option.some.injEq] at hs
    subst hs
    exact h

theorem inv_switch_to_directory {k k' : Kernel} {w : KWindows} (h : KernelInv k)
    (hs : k.switch_to_directory_mode w = some k') : KernelInv k' := by
  unfold Kernel.switch_to_directory_mode at hs
  cases hm : k.get_window_mode w with
  | Directory d =>
    simp only [hm, Option.some.injEq] at hs
    subst hs
    exact h
  | Editing e =>
    simp only [hm] at hs
    by_cases hv : utf8Valid e.filename = true
    · rw [if_pos hv] at hs
      cases hoc : k.fs.open_create e.filename with
      | some r =>
        obtain ⟨fs1, fd⟩ := r
        simp only [hoc] at hs
        by_cases hle : e.len ≤ PRACTICAL_FILE_BUFFER_SIZE
        · rw [if_pos hle] at hs
          cases hwr : fs1.write fd ((List.range e.len).map e.buffer) with
          | some fs2 =>
            simp only [hwr, Option.some.injEq] at hs
            subst hs
            have hlen : k.fs.files.length ≤ fs2.files.length := by
              rw [write_length hwr]
              exact open_create_mono hoc
            intro w'
            show InvMode
              (if w' = w then KWindowMode.Directory ⟨e.directory_index⟩
               else k.get_window_mode w') fs2.files.length
            split
            · show e.directory_index < fs2.files.length
              have hww := h w
              rw [hm] at hww
              exact Nat.lt_of_lt_of_le hww hlen
            · exact invMode_mono (h w') hlen
          | none =>
            simp only [hwr] at hs
            exact Option.noConfusion hs
        · rw [if_neg hle] at hs
          exact Option.noConfusion hs
      | none =>
        simp only [hoc] at hs
        exact Option.noConfusion hs
    · rw [if_neg hv] at hs
      exact Option.noConfusion hs
  | Running p =>
    simp only [hm, Option.some.injEq] at hs
    subst hs
    exact h

theorem inv_switch_to_run {k k' : Kernel} {w : KWindows} (h : KernelInv k)
    (hs : k.switch_to_run_mode w = some k') : KernelInv k' := by
  unfold Kernel.switch_to_run_mode at hs
  cases hm : k.get_window_mode w with
  | Directory d =>
    simp only [hm] at hs
    by_cases hlt : d.cursor < k.fs.files.length
    · rw [if_pos hlt] at hs
      by_cases hv : utf8Valid (k.fs.files.getD d.cursor ⟨[], []⟩).name = true
      · rw [if_pos hv] at hs
        cases hfd : k.fs.open_read (k.fs.files.getD d.cursor ⟨[], []⟩).name with
        | some fd =>
          simp only [hfd] at hs
          by_cases hpv : utf8Valid ((List.range (k.fs.readFile fd).1).map (k.fs.readFile fd).2)
              = true
          · rw [if_pos hpv] at hs
            simp only [Option.some.injEq] at hs
            subst hs
            exact inv_set_window_mode h trivial
          · rw [if_neg hpv] at hs
            exact Option.noConfusion hs
        | none =>
          simp only [hfd] at hs
          exact Option.noConfusion hs
      · rw [if_neg hv] at hs
        exact Option.noConfusion hs
    · rw [if_neg hlt] at hs
      exact Option.noConfusion hs
  | Editing e =>
    simp only [hm, Option.some.injEq] at hs
    subst hs
    exact h
  | Running p =>
    simp only [hm, Option.some.injEq] at hs
    subst hs
    exact h

theorem inv_try_create {k k' : Kernel} (h : KernelInv k)
    (hs : k.try_create_file = some k') : KernelInv k' := by
  unfold Kernel.try_create_file at hs
  by_cases hl : k.filebar_buffer.cursor ≤ MAX_FILENAME_BYTES
  · rw [if_pos hl] at hs
    by_cases hv : utf8Valid ((List.range k.filebar_buffer.cursor).map k.filebar_buffer.buffer)
        = true
    · rw [if_pos hv] at hs
      cases hoc : k.fs.open_create
          ((List.range k.filebar_buffer.cursor).map k.filebar_buffer.buffer) with
      | some r =>
        obtain ⟨fs1, fd⟩ := r
        simp only [hoc, Option.some.injEq] at hs
        subst hs
        intro w'
        show InvMode (k.get_window_mode w') fs1.files.length
        exact invMode_mono (h w') (open_create_mono hoc)
      | none =>
        simp only [hoc] at hs
        exact Option.noConfusion hs
    · rw [if_neg hv] at hs
      simp only [Option.some.injEq] at hs
      subst hs
      exact h
  · rw [if_neg hl] at hs
    exact Option.noConfusion hs

theorem inv_handle_raw {k k' : Kernel} {code : KeyCode} (h : KernelInv k)
    (hs : k.handle_raw code = some k') : KernelInv k' := by
  cases code with
  | F6 =>
    unfold Kernel.handle_raw at hs
    cases hsel : k.selected with
    | window w =>
      simp only [hsel] at hs
      exact inv_switch_to_directory h hs
    | filebar =>
      simp only [hsel, Option.some.injEq] at hs
      subst hs
      exact h
  | F7 =>
    simp only [Kernel.handle_raw, Option.some.injEq] at hs
    subst hs
    exact inv_scroll_edit_text h _
  | F8 =>
    simp only [Kernel.handle_raw, Option.some.injEq] at hs
    subst hs
    exact inv_scroll_edit_text h _
  | ArrowUp =>
    simp only [Kernel.handle_raw, Option.some.injEq] at hs
    subst hs
    exact inv_move_dir_cursor h _
  | ArrowDown =>
    simp only [Kernel.handle_raw, Option.some.injEq] at hs
    subst hs
    exact inv_move_dir_cursor h _
  | ArrowLeft =>
    simp only [Kernel.handle_raw, Option.some.injEq] at hs
    subst hs
    exact inv_move_dir_cursor h _
  | ArrowRight =>
    simp only [Kernel.handle_raw, Option.some.injEq] at hs
    subst hs
    exact inv_move_dir_cursor h _
  | F1 =>
    simp only [Kernel.handle_raw, Option.some.injEq] at hs
    subst hs
    exact h
  | F2 =>
    simp only [Kernel.handle_raw, Option.some.injEq] at hs
    subst hs
    exact h
  | F3 =>
    simp only [Kernel.handle_raw, Option.some.injEq] at hs
    subst hs
    exact h
  | F4 =>
    simp only [Kernel.handle_raw, Option.some.injEq] at hs
    subst hs
    exact h
  | F5 =>
    simp only [Kernel.handle_raw, Option.some.injEq] at hs
    subst hs
    exact h
  | Other =>
    simp only [Kernel.handle_raw, Option.some.injEq] at hs
    subst hs
    exact h

theorem inv_editing_key {k : Kernel} {w : KWindows} {e : EditingState} {c : Nat}
    (h : KernelInv k) (hm : k.get_window_mode w = KWindowMode.Editing e) :
    KernelInv (k.set_window_mode w (KWindowMode.Editing
      (if c = 10 then e.type_char 10
       else if is_drawable c then e.type_char c
       else if c = 8 then e.backspace
       else e))) := by
  apply inv_set_window_mode h
  have hw := h w
  rw [hm] at hw
  show (if c = 10 then e.type_char 10
        else if is_drawable c then e.type_char c
        else if c = 8 then e.backspace
        else e).directory_index < k.fs.files.length
  split
  · rw [type_char_directory_index]
    exact hw
  · split
    · rw [type_char_directory_index]
      exact hw
    · split
      · rw [backspace_directory_index]
        exact hw
      · exact hw

theorem inv_handle_unicode {k k' : Kernel} {c : Nat} (h : KernelInv k)
    (hs : k.handle_unicode c = some k') : KernelInv k' := by
  unfold Kernel.handle_unicode at hs
  cases hsel : k.selected with
  | filebar =>
    simp only [hsel] at hs
    by_cases h8 : c = 8
    · rw [if_pos h8] at hs
      simp only [Option.some.injEq] at hs
      subst hs
      exact h
    · rw [if_neg h8] at hs
      by_cases h10 : c = 10
      · rw [if_pos h10] at hs
        exact inv_try_create h hs
      · rw [if_neg h10] at hs
        by_cases hd : is_drawable c = true
        · rw [if_pos hd] at hs
          simp only [Option.some.injEq] at hs
          subst hs
          exact h
        · rw [if_neg hd] at hs
          simp only [Option.some.injEq] at hs
          subst hs
          exact h
  | window w =>
    cases hm : k.get_window_mode w with
    | Directory d =>
      simp only [hsel, hm] at hs
      by_cases he : c = 101
      · rw [if_pos he] at hs
        exact inv_switch_to_edit h hs
      · rw [if_neg he] at hs
        by_cases hr : c = 114
        · rw [if_pos hr] at hs
          exact inv_switch_to_run h hs
        · rw [if_neg hr] at hs
          simp only [Option.some.injEq] at hs
          subst hs
          exact h
    | Editing e =>
      simp only [hsel, hm, Option.some.injEq] at hs
      subst hs
      exact inv_editing_key h hm
    | Running p =>
      simp only [hsel, hm] at hs
      exact Option.noConfusion hs

theorem inv_key {k k' : Kernel} {ev : DecodedKey} (h : KernelInv k)
    (hs : k.key ev = some k') : KernelInv k' := by
  cases ev with
  | rawKey code => exact inv_handle_raw h hs
  | unicode c => exact inv_handle_unicode h hs

set_option maxRecDepth 40000 in
theorem initFS_files_length : (initFS.map fun f => f.files.length) = some 6 := by
  rfl

theorem inv_new {k : Kernel} (h : Kernel.new = some k) : KernelInv k := by
  unfold Kernel.new at h
  obtain ⟨f, hf, hk⟩ := Option.map_eq_some'.mp h
  subst hk
  have hlen : f.files.length = 6 := by
    have h6 := initFS_files_length
    rw [hf] at h6
    simpa using h6
  intro w
  show (0 : Nat) < f.files.length
  omega

theorem inv_reachable {k : Kernel} (h : Reachable k) : KernelInv k := by
  induction h with
  | init k hk => exact inv_new hk
  | step s ev s' hr hs ih => exact inv_key ih hs

/-- Claim C10: in every kernel state reachable from Kernel::new (four
directory windows at cursor 0 over six seeded files; files are never
deleted, so the file count never decreases) by any sequence of dispatched
key events, every window in directory mode has its cursor below the file
count — exactly the condition the assert! statements of switch_to_edit_mode
and switch_to_run_mode check, so those asserts can never fail. -/
theorem claim10_directory_cursor_valid (s : Kernel) (h : Reachable s) (w : KWindows)
    (d : DirectoryState) (hw : s.get_window_mode w = KWindowMode.Directory d) :
    d.cursor < s.fs.files.length := by
  have hi := inv_reachable h w
  rw [hw] at hi
  exact hi

/-- The concrete initial kernel state (the seeded Storage state under the
initial kernel fields). -/
def kInit : Kernel :=
  initKernel (initFS.getD ⟨[]⟩)

set_option maxRecDepth 40000 in
theorem kernel_new_eq : Kernel.new = some kInit := by
  rfl

theorem claim10_witness : (0 : Nat) < kInit.fs.files.length :=
  claim10_directory_cursor_valid kInit (Reachable.init kInit kernel_new_eq)
    KWindows.F1 ⟨0⟩ rfl

theorem padName_eq_self {name : List Nat} (h : name.length = MAX_FILENAME_BYTES) :
    padName name = name := by
  unfold padName
  rw [h]
  simp

theorem getD_eq_getElem {l : List KFile} {i : Nat} (h : i < l.length) :
    l.getD i ⟨[], []⟩ = l[i] := by
  simp [List.getD_eq_getElem?_getD, List.getElem?_eq_getElem h]

theorem findFile_self {fs : FSState} {i : Nat} (hi : i < fs.files.length) :
    ∃ j, fs.findFile (fs.files.getD i ⟨[], []⟩).name = some j := by
  rw [← Option.isSome_iff_exists]
  unfold FSState.findFile
  rw [List.findIdx?_isSome, List.any_eq_true]
  refine ⟨fs.files.getD i ⟨[], []⟩, ?_, ?_⟩
  · rw [getD_eq_getElem hi]
    exact List.getElem_mem hi
  · simp

theorem switch_to_edit_spec {k : Kernel} {w : KWindows} {d : DirectoryState}
    (hm : k.get_window_mode w = KWindowMode.Directory d)
    (hn : d.cursor < k.fs.files.length)
    (hlen10 : (k.fs.files.getD d.cursor ⟨[], []⟩).name.length = MAX_FILENAME_BYTES)
    (hv : utf8Valid (k.fs.files.getD d.cursor ⟨[], []⟩).name = true) :
    ∃ k', k.switch_to_edit_mode w = some k' ∧ k'.selected = k.selected ∧ k'.fs = k.fs ∧
      ∃ e : EditingState, k'.get_window_mode w = KWindowMode.Editing e ∧
        e.filename = (k.fs.files.getD d.cursor ⟨[], []⟩).name ∧
        e.directory_index = d.cursor ∧
        e.len ≤ PRACTICAL_FILE_BUFFER_SIZE := by
  obtain ⟨j, hj⟩ := findFile_self hn
  have hor : k.fs.open_read (k.fs.files.getD d.cursor ⟨[], []⟩).name = some j := by
    unfold FSState.open_read
    rw [padName_eq_self hlen10]
    exact hj
  refine ⟨k.set_window_mode w (KWindowMode.editing
      (k.fs.files.getD d.cursor ⟨[], []⟩).name
      (k.fs.readFile j).2 (k.fs.readFile j).1 d.cursor), ?_, rfl, rfl, ?_⟩
  · unfold Kernel.switch_to_edit_mode
    simp only [hm]
    rw [if_pos hn, if_pos hv]
    simp only [hor]
  · refine ⟨editingStateOf (k.fs.files.getD d.cursor ⟨[], []⟩).name
      (k.fs.readFile j).2 (k.fs.readFile j).1 d.cursor, ?_, rfl, rfl, ?_⟩
    · show (if w = w then KWindowMode.editing
          (k.fs.files.getD d.cursor ⟨[], []⟩).name
          (k.fs.readFile j).2 (k.fs.readFile j).1 d.cursor
        else k.get_window_mode w) = _
      rw [if_pos rfl]
      rfl
    · exact Nat.min_le_right _ _

theorem switch_to_directory_spec {k : Kernel} {w : KWindows} {e : EditingState}
    (hm : k.get_window_mode w = KWindowMode.Editing e)
    (hv : utf8Valid e.filename = true)
    (hlen10 : e.filename.length = MAX_FILENAME_BYTES)
    (hfound : ∃ j, k.fs.findFile e.filename = some j)
    (hle : e.len ≤ PRACTICAL_FILE_BUFFER_SIZE) :
    ∃ k', k.switch_to_directory_mode w = some k' ∧
      k'.get_window_mode w = KWindowMode.Directory ⟨e.directory_index⟩ := by
  obtain ⟨j, hj⟩ := hfound
  have hoc : k.fs.open_create e.filename
      = some (⟨k.fs.files.set j { name := e.filename, content := [] }⟩, j) := by
    unfold FSState.open_create
    rw [if_pos (Nat.le_of_eq hlen10)]
    simp only [padName_eq_self hlen10, hj]
  have hbytes : ((List.range e.len).map e.buffer).length ≤ MAX_FILE_BYTES := by
    have h1 : PRACTICAL_FILE_BUFFER_SIZE ≤ MAX_FILE_BYTES := by decide
    simp only [List.length_map, List.length_range]
    omega
  obtain ⟨fs2, hwr⟩ : ∃ fs2,
      (⟨k.fs.files.set j { name := e.filename, content := [] }⟩ : FSState).write j
        ((List.range e.len).map e.buffer) = some fs2 := by
    unfold FSState.write
    rw [if_pos hbytes]
    exact ⟨_, rfl⟩
  refine ⟨({ k with fs := fs2 }).set_window_mode w
      (KWindowMode.Directory ⟨e.directory_index⟩), ?_, ?_⟩
  · unfold Kernel.switch_to_directory_mode
    simp only [hm]
    rw [if_pos hv]
    simp only [hoc]
    rw [if_pos hle]
    simp only [hwr]
  · show (if w = w then KWindowMode.Directory ⟨e.directory_index⟩
        else k.get_window_mode w) = _
    rw [if_pos rfl]

/-- Claim C7: the directory-to-editing round trip restores the cursor.  From
a focused directory window with cursor n inside the listing (over well-formed
Storage names, so the chosen file is readable and writable back), the 'e' key
enters editing mode remembering origin_index = n, and F6 writes the buffer
back and restores directory mode with cursor n in that window. -/
theorem claim7_roundtrip (s : Kernel) (w : KWindows) (n : Nat)
    (hsel : s.selected = KSelection.window w)
    (hmode : s.get_window_mode w = KWindowMode.Directory ⟨n⟩)
    (hn : n < s.fs.files.length)
    (hwf : ∀ f ∈ s.fs.files, f.name.length = MAX_FILENAME_BYTES ∧ utf8Valid f.name = true) :
    ∃ s1 s2, s.key (DecodedKey.unicode 101) = some s1 ∧
      s1.key (DecodedKey.rawKey KeyCode.F6) = some s2 ∧
      s2.get_window_mode w = KWindowMode.Directory ⟨n⟩ := by
  have hmem : s.fs.files.getD n ⟨[], []⟩ ∈ s.fs.files := by
    rw [getD_eq_getElem hn]
    exact List.getElem_mem hn
  have hlen10 := (hwf _ hmem).1
  have hv := (hwf _ hmem).2
  obtain ⟨s1, hs1, hsel1, hfs1, e, hm1, hfn, hdi, hle⟩ :=
    switch_to_edit_spec hmode hn hlen10 hv
  have hkey1 : s.key (DecodedKey.unicode 101) = some s1 := by
    show s.handle_unicode 101 = some s1
    unfold Kernel.handle_unicode
    simp only [hsel, hmode]
    exact hs1
  have hsel1' : s1.selected = KSelection.window w := by rw [hsel1, hsel]
  have hfound : ∃ j, s1.fs.findFile e.filename = some j := by
    rw [hfs1, hfn]
    exact findFile_self hn
  obtain ⟨s2, hs2, hm2⟩ :=
    switch_to_directory_spec hm1 (by rw [hfn]; exact hv) (by rw [hfn]; exact hlen10)
      hfound hle
  have hkey2 : s1.key (DecodedKey.rawKey KeyCode.F6) = some s2 := by
    show s1.handle_raw KeyCode.F6 = some s2
    unfold Kernel.handle_raw
    simp only [hsel1']
    exact hs2
  refine ⟨s1, s2, hkey1, hkey2, ?_⟩
  rw [hm2, hdi]

/-- A small concrete kernel state for the round-trip witness: one stored
file named hi with content hi, window F1 focused in directory mode. -/
def sW : Kernel :=
  { selected := KSelection.window KWindows.F1
    filebar_buffer := TypingBuffer.clear
    window_modes := fun _ => KWindowMode.directory 0
    fs := ⟨[⟨padName [104, 105], [104, 105]⟩]⟩ }

theorem claim7_witness :
    ∃ s1 s2, sW.key (DecodedKey.unicode 101) = some s1 ∧
      s1.key (DecodedKey.rawKey KeyCode.F6) = some s2 ∧
      s2.get_window_mode KWindows.F1 = KWindowMode.Directory ⟨0⟩ :=
  claim7_roundtrip sW KWindows.F1 0 rfl rfl (by decide) (by decide)

/-- A Storage state whose file table is full: MAX_FILES_STORED files with
distinct one-byte names (65 through 94, zero-padded). -/
def fullFS : FSState :=
  ⟨(List.range MAX_FILES_STORED).map fun i => ⟨padName [65 + i], []⟩⟩

/-- A kernel state with the filebar focused holding the fresh one-byte name
z over the full file table. -/
def kFull : Kernel :=
  { selected := KSelection.filebar
    filebar_buffer := { buffer := fun i => if i = 0 then 122 else 0, cursor := 1 }
    window_modes := fun _ => KWindowMode.directory 0
    fs := fullFS }

set_option maxRecDepth 40000 in
/-- Claim C8 counterexample: with the file table full and a fresh, valid
name entered, Enter in the filebar aborts the kernel — the source unwraps
the Err of open_create — contradicting the claim that every failing attempt
is abandoned with no visible error and without aborting. -/
theorem claim8_counterexample : kFull.key (DecodedKey.unicode 10) = none := by
  rfl

/-- Claim C8, amended: Enter with the filebar focused clears the entry
buffer first and then attempts Storage open_create on the entered bytes as
UTF-8: on invalid encoding the attempt is abandoned silently with Storage
unchanged and the buffer cleared; on a successful create the handle is
closed at once and the buffer is cleared; but when open_create itself fails
(table full) the kernel aborts on the unwrap instead of abandoning the
attempt. -/
theorem claim8_enter_spec (k : Kernel) (hsel : k.selected = KSelection.filebar)
    (hcur : k.filebar_buffer.cursor ≤ MAX_FILENAME_BYTES) :
    (utf8Valid ((List.range k.filebar_buffer.cursor).map k.filebar_buffer.buffer) = false →
      k.key (DecodedKey.unicode 10)
        = some { k with filebar_buffer := TypingBuffer.clear }) ∧
    (utf8Valid ((List.range k.filebar_buffer.cursor).map k.filebar_buffer.buffer) = true →
      ∀ fs1 fd,
        k.fs.open_create ((List.range k.filebar_buffer.cursor).map k.filebar_buffer.buffer)
          = some (fs1, fd) →
        k.key (DecodedKey.unicode 10)
          = some { k with filebar_buffer := TypingBuffer.clear, fs := fs1 }) ∧
    (utf8Valid ((List.range k.filebar_buffer.cursor).map k.filebar_buffer.buffer) = true →
      k.fs.open_create ((List.range k.filebar_buffer.cursor).map k.filebar_buffer.buffer)
        = none →
      k.key (DecodedKey.unicode 10) = none) := by
  have hkey : k.key (DecodedKey.unicode 10) = k.try_create_file := by
    show k.handle_unicode 10 = k.try_create_file
    unfold Kernel.handle_unicode
    simp only [hsel]
    norm_num
  refine ⟨?_, ?_, ?_⟩
  · intro hv
    rw [hkey]
    unfold Kernel.try_create_file
    rw [if_pos hcur, if_neg (by rw [hv]; exact Bool.false_ne_true)]
  · intro hv fs1 fd hoc
    rw [hkey]
    unfold Kernel.try_create_file
    rw [if_pos hcur, if_pos hv]
    simp only [hoc]
  · intro hv hoc
    rw [hkey]
    unfold Kernel.try_create_file
    rw [if_pos hcur, if_pos hv]
    simp only [hoc]

/-- A kernel state with the filebar focused holding one byte outside the
ASCII range (an invalid UTF-8 sequence). -/
def kInv : Kernel :=
  { selected := KSelection.filebar
    filebar_buffer := { buffer := fun _ => 200, cursor := 1 }
    window_modes := fun _ => KWindowMode.directory 0
    fs := ⟨[]⟩ }

theorem claim8_witness :
    kInv.key (DecodedKey.unicode 10)
      = some { kInv with filebar_buffer := TypingBuffer.clear } :=
  (claim8_enter_spec kInv rfl (by decide)).1 (by decide)
